import Mathlib

/-!
Verification development for the System Hallucination Scale (SHS) calculator.

The scoring engine is embedded shallowly: JavaScript numbers are modelled as
exact rationals (every quantity the engine manipulates is a small decimal or a
quotient of small integers), responses as integers, and the static label
tables as Lean structures mirroring the source tables field by field.
The two front-end copies (`shs-calculator.js` and
`web-components/shs-calculator.js`) share their numeric core verbatim; the
embedding follows the `web-components` class for `calculate` and the common
code for the segment lookup and consistency summary.
-/

namespace SHS

/-- Question identifiers `q1`..`q10` of the fixed 10-item questionnaire. -/
inductive QId where
  | q1 | q2 | q3 | q4 | q5 | q6 | q7 | q8 | q9 | q10
deriving DecidableEq, Fintype

/-- The string key of a question id, as used by the keyed input mappings. -/
def QId.name : QId → String
  | .q1 => "q1"
  | .q2 => "q2"
  | .q3 => "q3"
  | .q4 => "q4"
  | .q5 => "q5"
  | .q6 => "q6"
  | .q7 => "q7"
  | .q8 => "q8"
  | .q9 => "q9"
  | .q10 => "q10"

/-- The ten question ids in questionnaire order. -/
def allQIds : List QId :=
  [.q1, .q2, .q3, .q4, .q5, .q6, .q7, .q8, .q9, .q10]

/-- A validated response set: every question maps to an integer value. -/
def ResponseSet : Type := QId → ℤ

/-- All ten responses are integers in the closed range [-2, 2]. -/
def ValidResponses (vals : ResponseSet) : Prop :=
  ∀ q : QId, -2 ≤ vals q ∧ vals q ≤ 2

instance : DecidablePred ValidResponses := fun vals =>
  inferInstanceAs (Decidable (∀ q : QId, -2 ≤ vals q ∧ vals q ≤ 2))

/-- One entry of the fixed dimension table (`DIMENSION_PAIRS` /
`pairs` in the source): a display key per language and the two
constituent question ids `a` and `b`. -/
structure Pair where
  key : String
  key_de : String
  key_fr : String
  a : QId
  b : QId
deriving DecidableEq

/-- `SHSCalculator.DIMENSION_PAIRS` (identical to `pairs` in
`shs-calculator.js`): the five dimension definitions in fixed table order. -/
def DIMENSION_PAIRS : List Pair :=
  [ { key := "Factual Accuracy", key_de := "Faktische Genauigkeit",
      key_fr := "Précision factuelle", a := .q1, b := .q2 },
    { key := "Source Reliability", key_de := "Quellenzuverlässigkeit",
      key_fr := "Fiabilité des sources", a := .q3, b := .q4 },
    { key := "Logical Coherence", key_de := "Logische Kohärenz",
      key_fr := "Cohérence logique", a := .q5, b := .q6 },
    { key := "Deceptiveness", key_de := "Täuschungspotenzial",
      key_fr := "Potentiel de tromperie", a := .q7, b := .q8 },
    { key := "Responsiveness to Guidance",
      key_de := "Reaktionsfähigkeit auf Anleitung",
      key_fr := "Réactivité aux conseils", a := .q9, b := .q10 } ]

/-- `CONS_VERY_GOOD` threshold constant from the source. -/
def CONS_VERY_GOOD : ℚ := 0.1

/-- `CONS_GOOD` threshold constant from the source. -/
def CONS_GOOD : ℚ := 0.5

/-- `getDimensionLabel(pair, lang)` from the source. -/
def getDimensionLabel (pair : Pair) (lang : String) : String :=
  if lang = "de" then pair.key_de
  else if lang = "fr" then pair.key_fr
  else pair.key

/-- One row of the 11-segment gauge lookup table. -/
structure Segment where
  min : ℚ
  max : ℚ
  label : String
deriving DecidableEq

/-- `segmentTexts.en`: the English 11-segment table. -/
def segmentTexts_en : List Segment :=
  [ { min := -1.0, max := -0.818, label := "Severe hallucination risk - critical factual errors" },
    { min := -0.818, max := -0.636, label := "Very high hallucination risk - frequent false information" },
    { min := -0.636, max := -0.454, label := "High hallucination risk - unreliable outputs" },
    { min := -0.454, max := -0.272, label := "Elevated hallucination risk - accuracy concerns" },
    { min := -0.272, max := -0.090, label := "Moderate hallucination risk - verify information" },
    { min := -0.090, max := 0.090, label := "Neutral - balanced factual reliability" },
    { min := 0.090, max := 0.272, label := "Slightly positive - generally factual" },
    { min := 0.272, max := 0.454, label := "Positive - good factual reliability" },
    { min := 0.454, max := 0.636, label := "Strongly positive - low hallucination risk" },
    { min := 0.636, max := 0.818, label := "Very strong factual alignment - highly reliable" },
    { min := 0.818, max := 1.0, label := "Excellent factual alignment - minimal hallucination risk" } ]

/-- `segmentTexts.de`: the German 11-segment table. -/
def segmentTexts_de : List Segment :=
  [ { min := -1.0, max := -0.818, label := "Schweres Halluzinationsrisiko - kritische faktische Fehler" },
    { min := -0.818, max := -0.636, label := "Sehr hohes Halluzinationsrisiko - häufige falsche Informationen" },
    { min := -0.636, max := -0.454, label := "Hohes Halluzinationsrisiko - unzuverlässige Ausgaben" },
    { min := -0.454, max := -0.272, label := "Erhöhtes Halluzinationsrisiko - Genauigkeitsbedenken" },
    { min := -0.272, max := -0.090, label := "Mäßiges Halluzinationsrisiko - Informationen überprüfen" },
    { min := -0.090, max := 0.090, label := "Neutral - ausgewogene faktische Zuverlässigkeit" },
    { min := 0.090, max := 0.272, label := "Leicht positiv - generell faktisch" },
    { min := 0.272, max := 0.454, label := "Positiv - gute faktische Zuverlässigkeit" },
    { min := 0.454, max := 0.636, label := "Stark positiv - niedriges Halluzinationsrisiko" },
    { min := 0.636, max := 0.818, label := "Sehr starke faktische Übereinstimmung - hochzuverlässig" },
    { min := 0.818, max := 1.0, label := "Ausgezeichnete faktische Übereinstimmung - minimales Halluzinationsrisiko" } ]

/-- `segmentTexts.fr`: the French 11-segment table. -/
def segmentTexts_fr : List Segment :=
  [ { min := -1.0, max := -0.818, label := "Risque d\x27hallucination sévère - erreurs factuelles critiques" },
    { min := -0.818, max := -0.636, label := "Très haut risque d\x27hallucination - informations fausses fréquentes" },
    { min := -0.636, max := -0.454, label := "Haut risque d\x27hallucination - sorties peu fiables" },
    { min := -0.454, max := -0.272, label := "Risque d\x27hallucination élevé - préoccupations de précision" },
    { min := -0.272, max := -0.090, label := "Risque d\x27hallucination modéré - vérifier les informations" },
    { min := -0.090, max := 0.090, label := "Neutre - fiabilité factuelle équilibrée" },
    { min := 0.090, max := 0.272, label := "Légèrement positif - généralement factuel" },
    { min := 0.272, max := 0.454, label := "Positif - bonne fiabilité factuelle" },
    { min := 0.454, max := 0.636, label := "Fortement positif - faible risque d\x27hallucination" },
    { min := 0.636, max := 0.818, label := "Alignement factuel très fort - hautement fiable" },
    { min := 0.818, max := 1.0, label := "Alignement factuel excellent - risque d\x27hallucination minimal" } ]

/-- `segmentTexts[lang] || segmentTexts.en`: table selection with English
fallback for unknown language codes. -/
def segmentTextsFor (lang : String) : List Segment :=
  if lang = "en" then segmentTexts_en
  else if lang = "de" then segmentTexts_de
  else if lang = "fr" then segmentTexts_fr
  else segmentTexts_en

/-- The `for (const seg of texts)` loop body of `getSegmentText`: first
segment whose closed interval `[min, max]` contains the value. -/
def findSegment : List Segment → ℚ → Option String
  | [], _ => none
  | seg :: rest, v =>
      if seg.min ≤ v ∧ v ≤ seg.max then some seg.label else findSegment rest v

/-- `Math.max(-1, Math.min(1, value))`: the defensive clamp of
`getSegmentText`. -/
def clamp (value : ℚ) : ℚ := max (-1) (min 1 value)

/-- `getSegmentText(value, lang)` from the source: clamp, scan the table in
order, fall back to the last row's label. -/
def getSegmentText (value : ℚ) (lang : String) : String :=
  let clamped := clamp value
  let texts := segmentTextsFor lang
  match findSegment texts clamped with
  | some label => label
  | none => (texts.getLastD { min := 0, max := 0, label := "" }).label

/-- The per-language record of `consistencyTexts` from the source. -/
structure ConsistencyTexts where
  veryGood : String
  good : String
  inconsistent : String
  review : String
deriving DecidableEq

/-- `consistencyTexts.en`. -/
def consistencyTexts_en : ConsistencyTexts :=
  { veryGood := "Consistency is very good.",
    good := "Consistency is good.",
    inconsistent := "Warning: responses are inconsistent (no consistent statement for at least one dimension).",
    review := "At least one pair is inconsistent; review those answers." }

/-- `consistencyTexts.de`. -/
def consistencyTexts_de : ConsistencyTexts :=
  { veryGood := "Konsistenz ist sehr gut.",
    good := "Konsistenz ist gut.",
    inconsistent := "Warnung: Antworten sind inkonsistent (keine konsistente Aussage für mindestens eine Dimension).",
    review := "Mindestens ein Paar ist inkonsistent; überprüfe diese Antworten." }

/-- `consistencyTexts.fr`. -/
def consistencyTexts_fr : ConsistencyTexts :=
  { veryGood := "La cohérence est très bonne.",
    good := "La cohérence est bonne.",
    inconsistent := "Avertissement: les réponses sont incohérentes (aucune déclaration cohérente pour au moins une dimension).",
    review := "Au moins une paire est incohérente; examinez ces réponses." }

/-- `consistencyTexts[lang] || consistencyTexts.en`. -/
def consistencyTextsFor (lang : String) : ConsistencyTexts :=
  if lang = "en" then consistencyTexts_en
  else if lang = "de" then consistencyTexts_de
  else if lang = "fr" then consistencyTexts_fr
  else consistencyTexts_en

/-- The per-language record of `breakdownConsistencyTexts` from the source. -/
structure BreakdownConsistencyTexts where
  noConsistent : String
  veryGood : String
  good : String
deriving DecidableEq

/-- `breakdownConsistencyTexts.en`. -/
def breakdownConsistencyTexts_en : BreakdownConsistencyTexts :=
  { noConsistent := "Consistency: no consistent statement for this dimension.",
    veryGood := "Consistency: very good.",
    good := "Consistency: good." }

/-- `breakdownConsistencyTexts.de`. -/
def breakdownConsistencyTexts_de : BreakdownConsistencyTexts :=
  { noConsistent := "Konsistenz: keine konsistente Aussage für diese Dimension.",
    veryGood := "Konsistenz: sehr gut.",
    good := "Konsistenz: gut." }

/-- `breakdownConsistencyTexts.fr`. -/
def breakdownConsistencyTexts_fr : BreakdownConsistencyTexts :=
  { noConsistent := "Cohérence: aucune déclaration cohérente pour cette dimension.",
    veryGood := "Cohérence: très bonne.",
    good := "Cohérence: bonne." }

/-- `breakdownConsistencyTexts[lang] || breakdownConsistencyTexts.en`. -/
def breakdownConsistencyTextsFor (lang : String) : BreakdownConsistencyTexts :=
  if lang = "en" then breakdownConsistencyTexts_en
  else if lang = "de" then breakdownConsistencyTexts_de
  else if lang = "fr" then breakdownConsistencyTexts_fr
  else breakdownConsistencyTexts_en

/-- The message list built by `consistencySummary` before joining: the
overall-level message, then the review flag when any dimension consistency
has absolute value above `CONS_GOOD`. -/
def consistencySummaryMsgs (overallCons : ℚ) (consList : List ℚ) (lang : String) :
    List String :=
  let texts := consistencyTextsFor lang
  let msgs :=
    if |overallCons| ≤ CONS_VERY_GOOD then [texts.veryGood]
    else if |overallCons| ≤ CONS_GOOD then [texts.good]
    else [texts.inconsistent]
  let outliers := (consList.filter (fun c => decide (|c| > CONS_GOOD))).length
  if outliers > 0 then msgs ++ [texts.review] else msgs

/-- `consistencySummary(overallCons, consList, lang)` from the source
(`getConsistencySummary` in the web-component): the messages joined by a
space. -/
def consistencySummary (overallCons : ℚ) (consList : List ℚ) (lang : String) :
    String :=
  String.intercalate " " (consistencySummaryMsgs overallCons consList lang)

/-- The `consText` selection of the breakdown rendering (submit handler /
`displayResults`): `|c| > CONS_GOOD` → `noConsistent`, else `|c| <
CONS_VERY_GOOD` → `veryGood`, else `good`. -/
def breakdownConsText (texts : BreakdownConsistencyTexts) (c : ℚ) : String :=
  if |c| > CONS_GOOD then texts.noConsistent
  else if |c| < CONS_VERY_GOOD then texts.veryGood
  else texts.good

/-- The three-tier consistency level. -/
inductive ConsLevel where
  | very_good | good | inconsistent
deriving DecidableEq

/-- The classification of the overall consistency, abstracted from the
branch structure of `consistencySummary`: `|v| ≤ 0.1` → very good,
`|v| ≤ 0.5` → good, otherwise inconsistent. -/
def overallConsLevel (v : ℚ) : ConsLevel :=
  if |v| ≤ CONS_VERY_GOOD then .very_good
  else if |v| ≤ CONS_GOOD then .good
  else .inconsistent

/-- The classification of a single dimension's consistency, abstracted from
the branch structure of the breakdown rendering: `|c| > 0.5` → inconsistent,
`|c| < 0.1` → very good, otherwise good. -/
def dimensionConsLevel (c : ℚ) : ConsLevel :=
  if |c| > CONS_GOOD then .inconsistent
  else if |c| < CONS_VERY_GOOD then .very_good
  else .good

/-- The text of a consistency level in a `consistencyTexts` record. -/
def ConsistencyTexts.ofLevel (texts : ConsistencyTexts) : ConsLevel → String
  | .very_good => texts.veryGood
  | .good => texts.good
  | .inconsistent => texts.inconsistent

/-- The text of a consistency level in a `breakdownConsistencyTexts`
record. -/
def BreakdownConsistencyTexts.ofLevel (texts : BreakdownConsistencyTexts) :
    ConsLevel → String
  | .very_good => texts.veryGood
  | .good => texts.good
  | .inconsistent => texts.noConsistent

/-- One entry pushed onto `breakdown` by `SHSCalculator.calculate`. -/
structure BreakdownEntry where
  dimension : Pair
  score : ℚ
  consistency : ℚ
  label : String
deriving DecidableEq

/-- The `this.results` object stored by `SHSCalculator.calculate`. -/
structure CalcResults where
  overall : ℚ
  overallConsistency : ℚ
  breakdown : List BreakdownEntry
  responses : ResponseSet

/-- `SHSCalculator.calculate` (numerically identical to the `shs-form`
submit handler of `shs-calculator.js`): per dimension pair `p` in table
order, `score = (vals[p.a] - vals[p.b]) / 4` and
`cons = (vals[p.a] + vals[p.b]) / 4`; `overall` and `overallConsistency`
divide the `reduce`-sums by the list lengths. -/
def calculate (vals : ResponseSet) (lang : String) : CalcResults :=
  let scores := DIMENSION_PAIRS.map
    (fun p => ((vals p.a : ℚ) - (vals p.b : ℚ)) / 4)
  let consistencies := DIMENSION_PAIRS.map
    (fun p => ((vals p.a : ℚ) + (vals p.b : ℚ)) / 4)
  let breakdown := DIMENSION_PAIRS.map
    (fun p =>
      { dimension := p,
        score := ((vals p.a : ℚ) - (vals p.b : ℚ)) / 4,
        consistency := ((vals p.a : ℚ) + (vals p.b : ℚ)) / 4,
        label := getDimensionLabel p lang })
  { overall := scores.foldl (· + ·) 0 / (scores.length : ℚ),
    overallConsistency :=
      consistencies.foldl (· + ·) 0 / (consistencies.length : ℚ),
    breakdown := breakdown,
    responses := vals }

/-- The `resultTitles` sub-record of a `TRANSLATIONS` entry. -/
structure ResultTitles where
  overall : String
  consistency : String
  breakdown : String
deriving DecidableEq

/-- One per-language entry of `SHSCalculator.TRANSLATIONS`. -/
structure Translations where
  title : String
  note : String
  button : String
  alert : String
  resultTitles : ResultTitles
  consistency : ConsistencyTexts
  breakdownConsistency : BreakdownConsistencyTexts
  segments : List Segment
deriving DecidableEq

/-- `SHSCalculator.TRANSLATIONS.en`. -/
def TRANSLATIONS_en : Translations :=
  { title := "Subjective Hallucination Scale (SHS) Calculator",
    note := "For each of the 10 questions, choose how much you agree: strongly disagree, disagree, neutral, agree, strongly agree. Then click Calculate to see your score.",
    button := "Calculate SHS",
    alert := "Please answer all questions.",
    resultTitles :=
      { overall := "Overall Score", consistency := "Consistency Check",
        breakdown := "Breakdown" },
    consistency := consistencyTexts_en,
    breakdownConsistency := breakdownConsistencyTexts_en,
    segments := segmentTexts_en }

/-- `SHSCalculator.TRANSLATIONS.de` (the note reproduces the source's raw
0x201E/0x22 quote characters). -/
def TRANSLATIONS_de : Translations :=
  { title := "Subjektive Halluzinationsskala (SHS) Rechner",
    note := "Beantworte die 10 Fragen, indem du deinen Grad der Zustimmung wählst: stimme gar nicht zu, stimme nicht zu, neutral, stimme zu, stimme voll zu. Dann klicke auf „Berechne SHS\x22, um deinen Score zu sehen.",
    button := "Berechne SHS",
    alert := "Bitte alle Fragen beantworten.",
    resultTitles :=
      { overall := "Gesamtscore", consistency := "Konsistenzprüfung",
        breakdown := "Aufschlüsselung" },
    consistency := consistencyTexts_de,
    breakdownConsistency := breakdownConsistencyTexts_de,
    segments := segmentTexts_de }

/-- `SHSCalculator.TRANSLATIONS.fr`. -/
def TRANSLATIONS_fr : Translations :=
  { title := "Calculateur d\x27échelle de hallucination subjective (SHS)",
    note := "Pour chacune des 10 questions, choisissez votre degré d\x27accord : pas du tout d\x27accord, pas d\x27accord, neutre, d\x27accord, tout à fait d\x27accord. Cliquez ensuite sur « Calculate » pour voir votre score.",
    button := "Calculer SHS",
    alert := "Veuillez répondre à toutes les questions.",
    resultTitles :=
      { overall := "Score global", consistency := "Vérification de cohérence",
        breakdown := "Répartition" },
    consistency := consistencyTexts_fr,
    breakdownConsistency := breakdownConsistencyTexts_fr,
    segments := segmentTexts_fr }

/-- `SHSCalculator.getTranslations`:
`TRANSLATIONS[this.currentLang] || TRANSLATIONS.en`. -/
def getTranslations (lang : String) : Translations :=
  if lang = "en" then TRANSLATIONS_en
  else if lang = "de" then TRANSLATIONS_de
  else if lang = "fr" then TRANSLATIONS_fr
  else TRANSLATIONS_en

/-- Modelled from the spec: the error taxonomy of the engine's `validate`
operation (`MissingQuestion(id)`, `UnknownQuestion(id)`,
`WrongLength(expected, actual)`, `OutOfRange(id, value)`). The Python
reference implementation (`shs_calculator.py`) that realises this contract
is not among these sources; only its API documentation is. Errors are
structured values carrying the offending field, not formatted text. -/
inductive ValidationError where
  | MissingQuestion (id : String)
  | UnknownQuestion (id : String)
  | WrongLength (expected actual : ℕ)
  | OutOfRange (id : String) (value : ℤ)
deriving DecidableEq

/-- Modelled from the spec: `validate(responses)` on a keyed mapping input.
Fails with `MissingQuestion` if any of `q1..q10` is absent, with
`UnknownQuestion` if extra keys are present, with `OutOfRange` if any value
is not in [-2, 2]; on success returns the immutable `ResponseSet`. The
Python reference implementation (`shs_calculator.py`) that realises this
contract is not among these sources. -/
def validate (input : List (String × ℤ)) :
    Except ValidationError ResponseSet :=
  match allQIds.find? (fun q => ! (input.map Prod.fst).contains q.name) with
  | some q => .error (.MissingQuestion q.name)
  | none =>
    match (input.map Prod.fst).find?
        (fun k => ! (allQIds.map QId.name).contains k) with
    | some k => .error (.UnknownQuestion k)
    | none =>
      match input.find? (fun kv => ! decide (-2 ≤ kv.2 ∧ kv.2 ≤ 2)) with
      | some kv => .error (.OutOfRange kv.1 kv.2)
      | none => .ok (fun q => (input.lookup q.name).getD 0)

/-- A keyed input for Scenario 4 of the spec: all questions answered except
`q7`. -/
def inputMissingQ7 : List (String × ℤ) :=
  [("q1", 2), ("q2", -2), ("q3", 1), ("q4", -1), ("q5", 2),
   ("q6", -2), ("q8", -1), ("q9", 1), ("q10", -1)]

/-- A sample valid response set (Scenario 1 of the spec). -/
def scenario1 : ResponseSet := fun q =>
  match q with
  | .q1 => 2 | .q2 => -2 | .q3 => 2 | .q4 => -2 | .q5 => 2
  | .q6 => -2 | .q7 => 2 | .q8 => -2 | .q9 => 2 | .q10 => -2

/-- A sample valid response set (Scenario 3 of the spec). -/
def scenario3 : ResponseSet := fun q =>
  match q with
  | .q1 => 2 | .q2 => -2 | .q3 => 1 | .q4 => -1 | .q5 => 2
  | .q6 => -2 | .q7 => 1 | .q8 => -1 | .q9 => 1 | .q10 => -1

/-- A response set with one inconsistent pair (Scenario 6 of the spec):
`q1 = q2 = 2`, all other answers 0. -/
def scenario6 : ResponseSet := fun q =>
  match q with
  | .q1 => 2 | .q2 => 2 | _ => 0

/-- The lower bound of the i-th gauge segment (English table). -/
def bmin (i : ℕ) : ℚ :=
  (segmentTexts_en.getD i { min := 0, max := 0, label := "" }).min

/-- The upper bound of the i-th gauge segment (English table). -/
def bmax (i : ℕ) : ℚ :=
  (segmentTexts_en.getD i { min := 0, max := 0, label := "" }).max

/-- The label of the i-th gauge segment (English table). -/
def blabel (i : ℕ) : String :=
  (segmentTexts_en.getD i { min := 0, max := 0, label := "" }).label

/-- The effective interval actually served by the first-match scan of
`getSegmentText`: band 0 is `[min, max]`, every later band is the
half-open `(min, max]` (its lower edge belongs to the band below). -/
def bandContains (i : ℕ) (v : ℚ) : Prop :=
  (if i = 0 then bmin i ≤ v else bmin i < v) ∧ v ≤ bmax i

instance (i : ℕ) (v : ℚ) : Decidable (bandContains i v) := by
  unfold bandContains; infer_instance

/-- The band-membership convention stated by the spec: each band is the
half-open `[min, max)`, except the final band which is closed on both
ends. -/
def specBandContains (i : ℕ) (v : ℚ) : Prop :=
  bmin i ≤ v ∧ (if i = 10 then v ≤ bmax i else v < bmax i)

instance (i : ℕ) (v : ℚ) : Decidable (specBandContains i v) := by
  unfold specBandContains; infer_instance

/-- A value read from a JS object literal by the property access
`obj[key]`: an own data property, a truthy member inherited from
`Object.prototype` (a function, or `Object.prototype` itself for
`__proto__` — never one of the label tables), or `undefined` when the key
is found nowhere on the prototype chain. -/
inductive JsValue (α : Type) where
  | own (a : α)
  | protoMember
  | undefined
deriving DecidableEq

/-- The property names every plain object literal inherits from
`Object.prototype`. Reading any of these on the label-table objects yields
a truthy function or object, so a `||` after the access keeps the
inherited member instead of taking the fallback. -/
def objectPrototypeMembers : List String :=
  ["constructor", "hasOwnProperty", "isPrototypeOf", "propertyIsEnumerable",
   "toLocaleString", "toString", "valueOf", "__proto__", "__defineGetter__",
   "__defineSetter__", "__lookupGetter__", "__lookupSetter__"]

/-- `x || fallback` applied to an accessed property: `undefined` is falsy
and is replaced by the fallback; an own table and an inherited prototype
member are both truthy and kept. -/
def jsOrElse {α : Type} (x : JsValue α) (fallback : α) : JsValue α :=
  match x with
  | .undefined => .own fallback
  | v => v

/-- The property access `segmentTexts[lang]` including the prototype
chain: own keys `en`/`de`/`fr`, then inherited `Object.prototype`
members, then `undefined`. -/
def segmentTextsAccess (lang : String) : JsValue (List Segment) :=
  if lang = "en" then .own segmentTexts_en
  else if lang = "de" then .own segmentTexts_de
  else if lang = "fr" then .own segmentTexts_fr
  else if lang ∈ objectPrototypeMembers then .protoMember
  else .undefined

/-- The property access `consistencyTexts[lang]` including the prototype
chain. -/
def consistencyTextsAccess (lang : String) : JsValue ConsistencyTexts :=
  if lang = "en" then .own consistencyTexts_en
  else if lang = "de" then .own consistencyTexts_de
  else if lang = "fr" then .own consistencyTexts_fr
  else if lang ∈ objectPrototypeMembers then .protoMember
  else .undefined

/-- The property access `breakdownConsistencyTexts[lang]` including the
prototype chain. -/
def breakdownConsistencyTextsAccess (lang : String) :
    JsValue BreakdownConsistencyTexts :=
  if lang = "en" then .own breakdownConsistencyTexts_en
  else if lang = "de" then .own breakdownConsistencyTexts_de
  else if lang = "fr" then .own breakdownConsistencyTexts_fr
  else if lang ∈ objectPrototypeMembers then .protoMember
  else .undefined

/-- The property access `SHSCalculator.TRANSLATIONS[lang]` including the
prototype chain. -/
def TRANSLATIONSAccess (lang : String) : JsValue Translations :=
  if lang = "en" then .own TRANSLATIONS_en
  else if lang = "de" then .own TRANSLATIONS_de
  else if lang = "fr" then .own TRANSLATIONS_fr
  else if lang ∈ objectPrototypeMembers then .protoMember
  else .undefined

/-- `SHSCalculator.getTranslations` with the prototype chain:
`TRANSLATIONS[this.currentLang] || TRANSLATIONS.en`. At a prototype-member
key this returns the truthy inherited member, not a translations record:
the `||` fallback is not taken. -/
def getTranslationsChecked (lang : String) : JsValue Translations :=
  jsOrElse (TRANSLATIONSAccess lang) TRANSLATIONS_en

/-- `getSegmentText` with the prototype chain: `const texts =
segmentTexts[lang] || segmentTexts.en`, then the `for (const seg of
texts)` scan with the last-row fallback. When the access kept an inherited
prototype member, the `for…of` throws a TypeError (a function is not
iterable); the thrown case is modelled as `none`. -/
def getSegmentTextChecked (value : ℚ) (lang : String) : Option String :=
  match jsOrElse (segmentTextsAccess lang) segmentTexts_en with
  | .own texts =>
      some (match findSegment texts (clamp value) with
        | some label => label
        | none => (texts.getLastD { min := 0, max := 0, label := "" }).label)
  | _ => none

/-! ## Theorems -/

/-- The head message of the consistency summary is exactly the text of the
`overallConsLevel` classification: the level abstraction matches the
source's branch structure. -/
theorem consistencySummaryMsgs_head (overallCons : ℚ) (consList : List ℚ)
    (lang : String) :
    (consistencySummaryMsgs overallCons consList lang).head? =
      some ((consistencyTextsFor lang).ofLevel (overallConsLevel overallCons)) := by
  unfold consistencySummaryMsgs overallConsLevel
  dsimp only
  split_ifs <;> rfl

/-- The breakdown `consText` is exactly the text of the
`dimensionConsLevel` classification: the level abstraction matches the
source's branch structure. -/
theorem breakdownConsText_eq_ofLevel (texts : BreakdownConsistencyTexts)
    (c : ℚ) :
    breakdownConsText texts c = texts.ofLevel (dimensionConsLevel c) := by
  unfold breakdownConsText dimensionConsLevel
  split_ifs <;> rfl

/-- C1: for every valid response set, `calculate` computes, per dimension
pair `(a, b)` in fixed table order, `score = (vals[a] - vals[b]) / 4` and
`consistency = (vals[a] + vals[b]) / 4`, and sets `overall` and
`overallConsistency` to the exact arithmetic means of the five dimension
scores and consistencies (the embedding is over ℚ, so no rounding occurs
anywhere). -/
theorem calculate_formulas (vals : ResponseSet) (lang : String)
    (hv : ValidResponses vals) :
    ((calculate vals lang).breakdown.map BreakdownEntry.score =
        DIMENSION_PAIRS.map (fun p => ((vals p.a : ℚ) - (vals p.b : ℚ)) / 4))
    ∧ ((calculate vals lang).breakdown.map BreakdownEntry.consistency =
        DIMENSION_PAIRS.map (fun p => ((vals p.a : ℚ) + (vals p.b : ℚ)) / 4))
    ∧ ((calculate vals lang).overall =
        (((vals .q1 : ℚ) - (vals .q2 : ℚ)) / 4
          + ((vals .q3 : ℚ) - (vals .q4 : ℚ)) / 4
          + ((vals .q5 : ℚ) - (vals .q6 : ℚ)) / 4
          + ((vals .q7 : ℚ) - (vals .q8 : ℚ)) / 4
          + ((vals .q9 : ℚ) - (vals .q10 : ℚ)) / 4) / 5)
    ∧ ((calculate vals lang).overallConsistency =
        (((vals .q1 : ℚ) + (vals .q2 : ℚ)) / 4
          + ((vals .q3 : ℚ) + (vals .q4 : ℚ)) / 4
          + ((vals .q5 : ℚ) + (vals .q6 : ℚ)) / 4
          + ((vals .q7 : ℚ) + (vals .q8 : ℚ)) / 4
          + ((vals .q9 : ℚ) + (vals .q10 : ℚ)) / 4) / 5) := by
  refine ⟨rfl, rfl, ?_, ?_⟩ <;>
    · simp only [calculate, DIMENSION_PAIRS, List.map_cons, List.map_nil,
        List.foldl_cons, List.foldl_nil, List.length_cons, List.length_nil]
      push_cast
      ring

/-- Witness for C1 at the Scenario 1 response set. -/
theorem calculate_formulas_witness :
    ValidResponses scenario1 ∧
    (((calculate scenario1 "en").breakdown.map BreakdownEntry.score =
        DIMENSION_PAIRS.map
          (fun p => ((scenario1 p.a : ℚ) - (scenario1 p.b : ℚ)) / 4))
    ∧ ((calculate scenario1 "en").breakdown.map BreakdownEntry.consistency =
        DIMENSION_PAIRS.map
          (fun p => ((scenario1 p.a : ℚ) + (scenario1 p.b : ℚ)) / 4))
    ∧ ((calculate scenario1 "en").overall =
        (((scenario1 .q1 : ℚ) - (scenario1 .q2 : ℚ)) / 4
          + ((scenario1 .q3 : ℚ) - (scenario1 .q4 : ℚ)) / 4
          + ((scenario1 .q5 : ℚ) - (scenario1 .q6 : ℚ)) / 4
          + ((scenario1 .q7 : ℚ) - (scenario1 .q8 : ℚ)) / 4
          + ((scenario1 .q9 : ℚ) - (scenario1 .q10 : ℚ)) / 4) / 5)
    ∧ ((calculate scenario1 "en").overallConsistency =
        (((scenario1 .q1 : ℚ) + (scenario1 .q2 : ℚ)) / 4
          + ((scenario1 .q3 : ℚ) + (scenario1 .q4 : ℚ)) / 4
          + ((scenario1 .q5 : ℚ) + (scenario1 .q6 : ℚ)) / 4
          + ((scenario1 .q7 : ℚ) + (scenario1 .q8 : ℚ)) / 4
          + ((scenario1 .q9 : ℚ) + (scenario1 .q10 : ℚ)) / 4) / 5)) :=
  ⟨by decide, calculate_formulas scenario1 "en" (by decide)⟩

/-- C3 (counterexample): the two three-tier consistency classifiers are not
extensionally equal — at the threshold value 0.1 the overall-consistency
classifier (`<=` on the lower threshold) says very good while the
per-dimension classifier (`<` on the lower threshold) says good. -/
theorem consLevel_disagree_at_boundary :
    overallConsLevel (0.1 : ℚ) = ConsLevel.very_good
    ∧ dimensionConsLevel (0.1 : ℚ) = ConsLevel.good
    ∧ ConsLevel.very_good ≠ ConsLevel.good := by
  have h : |(0.1 : ℚ)| = 0.1 := abs_of_nonneg (by norm_num)
  refine ⟨?_, ?_, by simp⟩ <;>
    · simp only [overallConsLevel, dimensionConsLevel, CONS_VERY_GOOD, CONS_GOOD]
      rw [h]
      norm_num

/-- C3 (amended): away from the boundary `|v| = 0.1` the two classifiers
agree; in particular they agree at every value the engine can produce
(multiples of 0.25). -/
theorem consLevel_agree_off_boundary (v : ℚ) (h : |v| ≠ CONS_VERY_GOOD) :
    overallConsLevel v = dimensionConsLevel v := by
  rcases lt_or_gt_of_ne h with hlt | hgt
  · unfold overallConsLevel dimensionConsLevel
    rw [if_pos hlt.le,
      if_neg (not_lt.mpr (hlt.le.trans (by norm_num [CONS_VERY_GOOD, CONS_GOOD]))),
      if_pos hlt]
  · unfold overallConsLevel dimensionConsLevel
    rw [if_neg (not_le.mpr hgt)]
    by_cases hB : |v| ≤ CONS_GOOD
    · rw [if_pos hB, if_neg (not_lt.mpr hB), if_neg (not_lt.mpr hgt.le)]
    · rw [if_neg hB, if_pos (not_le.mp hB)]

/-- Witness for C3 (amended) at v = 0.3. -/
theorem consLevel_agree_off_boundary_witness :
    |(0.3 : ℚ)| ≠ CONS_VERY_GOOD
    ∧ overallConsLevel (0.3 : ℚ) = dimensionConsLevel (0.3 : ℚ) := by
  have h : |(0.3 : ℚ)| ≠ CONS_VERY_GOOD := by
    rw [abs_of_nonneg (by norm_num : (0 : ℚ) ≤ 0.3)]
    norm_num [CONS_VERY_GOOD]
  exact ⟨h, consLevel_agree_off_boundary (0.3 : ℚ) h⟩

/-- C5: consistency classification boundary behaviour — 0.0 is very good,
exactly 0.5 is good (not inconsistent), 0.51 is inconsistent, both for the
overall-consistency summary text and for the per-dimension consistency
level. -/
theorem consistency_boundaries :
    consistencySummary 0 [] "en" = "Consistency is very good."
    ∧ consistencySummary (0.5 : ℚ) [] "en" = "Consistency is good."
    ∧ consistencySummary (0.51 : ℚ) [] "en" =
        "Warning: responses are inconsistent (no consistent statement for at least one dimension)."
    ∧ breakdownConsText breakdownConsistencyTexts_en 0 = "Consistency: very good."
    ∧ breakdownConsText breakdownConsistencyTexts_en (0.5 : ℚ) = "Consistency: good."
    ∧ breakdownConsText breakdownConsistencyTexts_en (0.51 : ℚ) =
        "Consistency: no consistent statement for this dimension."
    ∧ dimensionConsLevel 0 = ConsLevel.very_good
    ∧ dimensionConsLevel (0.5 : ℚ) = ConsLevel.good
    ∧ dimensionConsLevel (0.51 : ℚ) = ConsLevel.inconsistent := by
  have h0 : |(0 : ℚ)| = 0 := abs_zero
  have h5 : |(0.5 : ℚ)| = 0.5 := abs_of_nonneg (by norm_num)
  have h51 : |(0.51 : ℚ)| = 0.51 := abs_of_nonneg (by norm_num)
  refine ⟨?_, ?_, ?_, ?_, ?_, ?_, ?_, ?_, ?_⟩ <;>
    · simp only [consistencySummary, consistencySummaryMsgs, dimensionConsLevel,
        breakdownConsText, breakdownConsistencyTexts_en, CONS_VERY_GOOD, CONS_GOOD]
      first
        | (rw [h0]; norm_num)
        | (rw [h5]; norm_num)
        | (rw [h51]; norm_num)
      try rfl

/-- C7: language noninterference — for every valid response set and any two
language codes, `calculate` yields identical numeric results: the overall
score, the overall consistency and every dimension's score and consistency
are unchanged; only display labels can differ. -/
theorem calculate_lang_noninterference (vals : ResponseSet)
    (lang1 lang2 : String) (hv : ValidResponses vals) :
    ((calculate vals lang1).overall = (calculate vals lang2).overall)
    ∧ ((calculate vals lang1).overallConsistency =
        (calculate vals lang2).overallConsistency)
    ∧ ((calculate vals lang1).breakdown.map BreakdownEntry.score =
        (calculate vals lang2).breakdown.map BreakdownEntry.score)
    ∧ ((calculate vals lang1).breakdown.map BreakdownEntry.consistency =
        (calculate vals lang2).breakdown.map BreakdownEntry.consistency) :=
  ⟨rfl, rfl, rfl, rfl⟩

/-- Witness for C7 at the Scenario 3 response set, languages en and fr. -/
theorem calculate_lang_noninterference_witness :
    ValidResponses scenario3 ∧
    (((calculate scenario3 "en").overall = (calculate scenario3 "fr").overall)
    ∧ ((calculate scenario3 "en").overallConsistency =
        (calculate scenario3 "fr").overallConsistency)
    ∧ ((calculate scenario3 "en").breakdown.map BreakdownEntry.score =
        (calculate scenario3 "fr").breakdown.map BreakdownEntry.score)
    ∧ ((calculate scenario3 "en").breakdown.map BreakdownEntry.consistency =
        (calculate scenario3 "fr").breakdown.map BreakdownEntry.consistency)) :=
  ⟨by decide, calculate_lang_noninterference scenario3 "en" "fr" (by decide)⟩

/-- C8: for every valid response set, each dimension's score and
consistency is an exact multiple of 0.25 lying in [-1, 1], and the overall
score and overall consistency both lie in [-1, 1]. -/
theorem calculate_bounds (vals : ResponseSet) (lang : String)
    (hv : ValidResponses vals) :
    (∀ e ∈ (calculate vals lang).breakdown,
      (∃ k : ℤ, e.score = (k : ℚ) * (1/4)) ∧ (-1 ≤ e.score ∧ e.score ≤ 1)
      ∧ (∃ k : ℤ, e.consistency = (k : ℚ) * (1/4))
      ∧ (-1 ≤ e.consistency ∧ e.consistency ≤ 1))
    ∧ (-1 ≤ (calculate vals lang).overall ∧ (calculate vals lang).overall ≤ 1)
    ∧ (-1 ≤ (calculate vals lang).overallConsistency
        ∧ (calculate vals lang).overallConsistency ≤ 1) := by
  have hb : ∀ q : QId, (-2 : ℚ) ≤ (vals q : ℚ) ∧ (vals q : ℚ) ≤ 2 := by
    intro q
    obtain ⟨u1, u2⟩ := hv q
    exact ⟨by exact_mod_cast u1, by exact_mod_cast u2⟩
  have h1 := hb .q1
  have h2 := hb .q2
  have h3 := hb .q3
  have h4 := hb .q4
  have h5 := hb .q5
  have h6 := hb .q6
  have h7 := hb .q7
  have h8 := hb .q8
  have h9 := hb .q9
  have h10 := hb .q10
  refine ⟨?_, ⟨?_, ?_⟩, ⟨?_, ?_⟩⟩
  · intro e he
    simp only [calculate, DIMENSION_PAIRS, List.map_cons, List.map_nil,
      List.mem_cons, List.not_mem_nil, or_false] at he
    rcases he with rfl | rfl | rfl | rfl | rfl
    · exact ⟨⟨vals .q1 - vals .q2, by push_cast; ring⟩,
        ⟨by dsimp only; linarith [h1.1, h1.2, h2.1, h2.2],
         by dsimp only; linarith [h1.1, h1.2, h2.1, h2.2]⟩,
        ⟨vals .q1 + vals .q2, by push_cast; ring⟩,
        ⟨by dsimp only; linarith [h1.1, h1.2, h2.1, h2.2],
         by dsimp only; linarith [h1.1, h1.2, h2.1, h2.2]⟩⟩
    · exact ⟨⟨vals .q3 - vals .q4, by push_cast; ring⟩,
        ⟨by dsimp only; linarith [h3.1, h3.2, h4.1, h4.2],
         by dsimp only; linarith [h3.1, h3.2, h4.1, h4.2]⟩,
        ⟨vals .q3 + vals .q4, by push_cast; ring⟩,
        ⟨by dsimp only; linarith [h3.1, h3.2, h4.1, h4.2],
         by dsimp only; linarith [h3.1, h3.2, h4.1, h4.2]⟩⟩
    · exact ⟨⟨vals .q5 - vals .q6, by push_cast; ring⟩,
        ⟨by dsimp only; linarith [h5.1, h5.2, h6.1, h6.2],
         by dsimp only; linarith [h5.1, h5.2, h6.1, h6.2]⟩,
        ⟨vals .q5 + vals .q6, by push_cast; ring⟩,
        ⟨by dsimp only; linarith [h5.1, h5.2, h6.1, h6.2],
         by dsimp only; linarith [h5.1, h5.2, h6.1, h6.2]⟩⟩
    · exact ⟨⟨vals .q7 - vals .q8, by push_cast; ring⟩,
        ⟨by dsimp only; linarith [h7.1, h7.2, h8.1, h8.2],
         by dsimp only; linarith [h7.1, h7.2, h8.1, h8.2]⟩,
        ⟨vals .q7 + vals .q8, by push_cast; ring⟩,
        ⟨by dsimp only; linarith [h7.1, h7.2, h8.1, h8.2],
         by dsimp only; linarith [h7.1, h7.2, h8.1, h8.2]⟩⟩
    · exact ⟨⟨vals .q9 - vals .q10, by push_cast; ring⟩,
        ⟨by dsimp only; linarith [h9.1, h9.2, h10.1, h10.2],
         by dsimp only; linarith [h9.1, h9.2, h10.1, h10.2]⟩,
        ⟨vals .q9 + vals .q10, by push_cast; ring⟩,
        ⟨by dsimp only; linarith [h9.1, h9.2, h10.1, h10.2],
         by dsimp only; linarith [h9.1, h9.2, h10.1, h10.2]⟩⟩
  all_goals
    simp only [calculate, DIMENSION_PAIRS, List.map_cons, List.map_nil,
      List.foldl_cons, List.foldl_nil, List.length_cons, List.length_nil]
    push_cast
    linarith [h1.1, h1.2, h2.1, h2.2, h3.1, h3.2, h4.1, h4.2, h5.1, h5.2,
      h6.1, h6.2, h7.1, h7.2, h8.1, h8.2, h9.1, h9.2, h10.1, h10.2]

/-- Witness for C8 at the Scenario 6 response set. -/
theorem calculate_bounds_witness :
    ValidResponses scenario6 ∧
    ((∀ e ∈ (calculate scenario6 "en").breakdown,
      (∃ k : ℤ, e.score = (k : ℚ) * (1/4)) ∧ (-1 ≤ e.score ∧ e.score ≤ 1)
      ∧ (∃ k : ℤ, e.consistency = (k : ℚ) * (1/4))
      ∧ (-1 ≤ e.consistency ∧ e.consistency ≤ 1))
    ∧ (-1 ≤ (calculate scenario6 "en").overall
        ∧ (calculate scenario6 "en").overall ≤ 1)
    ∧ (-1 ≤ (calculate scenario6 "en").overallConsistency
        ∧ (calculate scenario6 "en").overallConsistency ≤ 1)) :=
  ⟨by decide, calculate_bounds scenario6 "en" (by decide)⟩

/-- The clamp never goes below -1. -/
theorem clamp_lower (v : ℚ) : -1 ≤ clamp v := le_max_left _ _

/-- The clamp never goes above 1. -/
theorem clamp_upper (v : ℚ) : clamp v ≤ 1 :=
  max_le (by norm_num) (min_le_left _ _)

/-- Values already in [-1, 1] are unchanged by the clamp. -/
theorem clamp_eq_self (v : ℚ) (h1 : -1 ≤ v) (h2 : v ≤ 1) : clamp v = v := by
  unfold clamp
  rw [min_eq_right h2, max_eq_right h1]

/-- The clamp is idempotent. -/
theorem clamp_idem (v : ℚ) : clamp (clamp v) = clamp v :=
  clamp_eq_self _ (clamp_lower v) (clamp_upper v)

/-- A label returned by the table scan belongs to some row of the table. -/
theorem findSegment_label_mem (texts : List Segment) (v : ℚ) (l : String)
    (h : findSegment texts v = some l) : ∃ seg ∈ texts, seg.label = l := by
  induction texts with
  | nil => simp [findSegment] at h
  | cons s rest ih =>
    rw [findSegment] at h
    split_ifs at h with hc
    · refine ⟨s, by simp, ?_⟩
      injection h with h2
    · obtain ⟨seg, hm, hl⟩ := ih h
      exact ⟨seg, by simp [hm], hl⟩

/-- `getLastD` of a nonempty list is a member of the list. -/
theorem getLastD_mem_of_ne_nil (l : List Segment) (d : Segment) (h : l ≠ []) :
    l.getLastD d ∈ l := by
  rw [List.getLastD_eq_getLast?, List.getLast?_eq_getLast l h]
  exact List.getLast_mem h

/-- Every language's segment table is nonempty. -/
theorem segmentTextsFor_ne_nil (lang : String) : segmentTextsFor lang ≠ [] := by
  unfold segmentTextsFor
  split_ifs <;> simp [segmentTexts_en, segmentTexts_de, segmentTexts_fr]

/-- Band 0 of the English table is served on [-1, -0.818]. -/
theorem getSegmentText_en_band0 (v : ℚ) (h1 : -1 ≤ v) (h2 : v ≤ -0.818) :
    getSegmentText v "en" = blabel 0 := by
  have hc : clamp v = v := clamp_eq_self v (by linarith) (by linarith)
  simp only [getSegmentText, hc, show segmentTextsFor "en" = segmentTexts_en from rfl]
  simp only [segmentTexts_en, findSegment]
  rw [if_pos ⟨by linarith, h2⟩]
  rfl

/-- Band 1 of the English table is served on (-0.818, -0.636]. -/
theorem getSegmentText_en_band1 (v : ℚ) (h1 : -0.818 < v) (h2 : v ≤ -0.636) :
    getSegmentText v "en" = blabel 1 := by
  have hc : clamp v = v := clamp_eq_self v (by linarith) (by linarith)
  simp only [getSegmentText, hc, show segmentTextsFor "en" = segmentTexts_en from rfl]
  simp only [segmentTexts_en, findSegment]
  rw [if_neg (by rintro ⟨u1, u2⟩; linarith), if_pos ⟨by linarith, h2⟩]
  rfl

/-- Band 2 of the English table is served on (-0.636, -0.454]. -/
theorem getSegmentText_en_band2 (v : ℚ) (h1 : -0.636 < v) (h2 : v ≤ -0.454) :
    getSegmentText v "en" = blabel 2 := by
  have hc : clamp v = v := clamp_eq_self v (by linarith) (by linarith)
  simp only [getSegmentText, hc, show segmentTextsFor "en" = segmentTexts_en from rfl]
  simp only [segmentTexts_en, findSegment]
  rw [if_neg (by rintro ⟨u1, u2⟩; linarith), if_neg (by rintro ⟨u1, u2⟩; linarith),
    if_pos ⟨by linarith, h2⟩]
  rfl

/-- Band 3 of the English table is served on (-0.454, -0.272]. -/
theorem getSegmentText_en_band3 (v : ℚ) (h1 : -0.454 < v) (h2 : v ≤ -0.272) :
    getSegmentText v "en" = blabel 3 := by
  have hc : clamp v = v := clamp_eq_self v (by linarith) (by linarith)
  simp only [getSegmentText, hc, show segmentTextsFor "en" = segmentTexts_en from rfl]
  simp only [segmentTexts_en, findSegment]
  rw [if_neg (by rintro ⟨u1, u2⟩; linarith), if_neg (by rintro ⟨u1, u2⟩; linarith),
    if_neg (by rintro ⟨u1, u2⟩; linarith), if_pos ⟨by linarith, h2⟩]
  rfl

/-- Band 4 of the English table is served on (-0.272, -0.090]. -/
theorem getSegmentText_en_band4 (v : ℚ) (h1 : -0.272 < v) (h2 : v ≤ -0.090) :
    getSegmentText v "en" = blabel 4 := by
  have hc : clamp v = v := clamp_eq_self v (by linarith) (by linarith)
  simp only [getSegmentText, hc, show segmentTextsFor "en" = segmentTexts_en from rfl]
  simp only [segmentTexts_en, findSegment]
  rw [if_neg (by rintro ⟨u1, u2⟩; linarith), if_neg (by rintro ⟨u1, u2⟩; linarith),
    if_neg (by rintro ⟨u1, u2⟩; linarith), if_neg (by rintro ⟨u1, u2⟩; linarith),
    if_pos ⟨by linarith, h2⟩]
  rfl

/-- Band 5 of the English table is served on (-0.090, 0.090]. -/
theorem getSegmentText_en_band5 (v : ℚ) (h1 : -0.090 < v) (h2 : v ≤ 0.090) :
    getSegmentText v "en" = blabel 5 := by
  have hc : clamp v = v := clamp_eq_self v (by linarith) (by linarith)
  simp only [getSegmentText, hc, show segmentTextsFor "en" = segmentTexts_en from rfl]
  simp only [segmentTexts_en, findSegment]
  rw [if_neg (by rintro ⟨u1, u2⟩; linarith), if_neg (by rintro ⟨u1, u2⟩; linarith),
    if_neg (by rintro ⟨u1, u2⟩; linarith), if_neg (by rintro ⟨u1, u2⟩; linarith),
    if_neg (by rintro ⟨u1, u2⟩; linarith), if_pos ⟨by linarith, h2⟩]
  rfl

/-- Band 6 of the English table is served on (0.090, 0.272]. -/
theorem getSegmentText_en_band6 (v : ℚ) (h1 : 0.090 < v) (h2 : v ≤ 0.272) :
    getSegmentText v "en" = blabel 6 := by
  have hc : clamp v = v := clamp_eq_self v (by linarith) (by linarith)
  simp only [getSegmentText, hc, show segmentTextsFor "en" = segmentTexts_en from rfl]
  simp only [segmentTexts_en, findSegment]
  rw [if_neg (by rintro ⟨u1, u2⟩; linarith), if_neg (by rintro ⟨u1, u2⟩; linarith),
    if_neg (by rintro ⟨u1, u2⟩; linarith), if_neg (by rintro ⟨u1, u2⟩; linarith),
    if_neg (by rintro ⟨u1, u2⟩; linarith), if_neg (by rintro ⟨u1, u2⟩; linarith),
    if_pos ⟨by linarith, h2⟩]
  rfl

/-- Band 7 of the English table is served on (0.272, 0.454]. -/
theorem getSegmentText_en_band7 (v : ℚ) (h1 : 0.272 < v) (h2 : v ≤ 0.454) :
    getSegmentText v "en" = blabel 7 := by
  have hc : clamp v = v := clamp_eq_self v (by linarith) (by linarith)
  simp only [getSegmentText, hc, show segmentTextsFor "en" = segmentTexts_en from rfl]
  simp only [segmentTexts_en, findSegment]
  rw [if_neg (by rintro ⟨u1, u2⟩; linarith), if_neg (by rintro ⟨u1, u2⟩; linarith),
    if_neg (by rintro ⟨u1, u2⟩; linarith), if_neg (by rintro ⟨u1, u2⟩; linarith),
    if_neg (by rintro ⟨u1, u2⟩; linarith), if_neg (by rintro ⟨u1, u2⟩; linarith),
    if_neg (by rintro ⟨u1, u2⟩; linarith), if_pos ⟨by linarith, h2⟩]
  rfl

/-- Band 8 of the English table is served on (0.454, 0.636]. -/
theorem getSegmentText_en_band8 (v : ℚ) (h1 : 0.454 < v) (h2 : v ≤ 0.636) :
    getSegmentText v "en" = blabel 8 := by
  have hc : clamp v = v := clamp_eq_self v (by linarith) (by linarith)
  simp only [getSegmentText, hc, show segmentTextsFor "en" = segmentTexts_en from rfl]
  simp only [segmentTexts_en, findSegment]
  rw [if_neg (by rintro ⟨u1, u2⟩; linarith), if_neg (by rintro ⟨u1, u2⟩; linarith),
    if_neg (by rintro ⟨u1, u2⟩; linarith), if_neg (by rintro ⟨u1, u2⟩; linarith),
    if_neg (by rintro ⟨u1, u2⟩; linarith), if_neg (by rintro ⟨u1, u2⟩; linarith),
    if_neg (by rintro ⟨u1, u2⟩; linarith), if_neg (by rintro ⟨u1, u2⟩; linarith),
    if_pos ⟨by linarith, h2⟩]
  rfl

/-- Band 9 of the English table is served on (0.636, 0.818]. -/
theorem getSegmentText_en_band9 (v : ℚ) (h1 : 0.636 < v) (h2 : v ≤ 0.818) :
    getSegmentText v "en" = blabel 9 := by
  have hc : clamp v = v := clamp_eq_self v (by linarith) (by linarith)
  simp only [getSegmentText, hc, show segmentTextsFor "en" = segmentTexts_en from rfl]
  simp only [segmentTexts_en, findSegment]
  rw [if_neg (by rintro ⟨u1, u2⟩; linarith), if_neg (by rintro ⟨u1, u2⟩; linarith),
    if_neg (by rintro ⟨u1, u2⟩; linarith), if_neg (by rintro ⟨u1, u2⟩; linarith),
    if_neg (by rintro ⟨u1, u2⟩; linarith), if_neg (by rintro ⟨u1, u2⟩; linarith),
    if_neg (by rintro ⟨u1, u2⟩; linarith), if_neg (by rintro ⟨u1, u2⟩; linarith),
    if_neg (by rintro ⟨u1, u2⟩; linarith), if_pos ⟨by linarith, h2⟩]
  rfl

/-- Band 10 of the English table is served on (0.818, 1]. -/
theorem getSegmentText_en_band10 (v : ℚ) (h1 : 0.818 < v) (h2 : v ≤ 1) :
    getSegmentText v "en" = blabel 10 := by
  have hc : clamp v = v := clamp_eq_self v (by linarith) (by linarith)
  simp only [getSegmentText, hc, show segmentTextsFor "en" = segmentTexts_en from rfl]
  simp only [segmentTexts_en, findSegment]
  rw [if_neg (by rintro ⟨u1, u2⟩; linarith), if_neg (by rintro ⟨u1, u2⟩; linarith),
    if_neg (by rintro ⟨u1, u2⟩; linarith), if_neg (by rintro ⟨u1, u2⟩; linarith),
    if_neg (by rintro ⟨u1, u2⟩; linarith), if_neg (by rintro ⟨u1, u2⟩; linarith),
    if_neg (by rintro ⟨u1, u2⟩; linarith), if_neg (by rintro ⟨u1, u2⟩; linarith),
    if_neg (by rintro ⟨u1, u2⟩; linarith), if_neg (by rintro ⟨u1, u2⟩; linarith),
    if_pos ⟨by linarith, by linarith⟩]
  rfl

/-- Consecutive band edges coincide: the i-th upper bound is the (i+1)-th
lower bound. -/
theorem bmax_eq_bmin_succ : ∀ i < 10, bmax i = bmin (i + 1) := by
  intro i hi
  interval_cases i <;> rfl

/-- Each band's lower bound is at most its upper bound. -/
theorem bmin_le_bmax : ∀ i < 11, bmin i ≤ bmax i := by
  intro i hi
  interval_cases i <;> norm_num [bmin, bmax, segmentTexts_en]

/-- Band bounds are ordered across bands. -/
theorem bmax_le_bmin (i j : ℕ) (hij : i < j) (hj : j < 11) : bmax i ≤ bmin j := by
  induction j with
  | zero => omega
  | succ n ih =>
    rcases Nat.lt_succ_iff_lt_or_eq.mp hij with h | h
    · calc bmax i ≤ bmin n := ih h (by omega)
        _ ≤ bmax n := bmin_le_bmax n (by omega)
        _ = bmin (n + 1) := bmax_eq_bmin_succ n (by omega)
    · rw [h]
      exact le_of_eq (bmax_eq_bmin_succ n (by omega))

/-- No value lies in two distinct effective bands. -/
theorem bandContains_unique (v : ℚ) (i j : ℕ) (hi : i < 11) (hj : j < 11)
    (hbi : bandContains i v) (hbj : bandContains j v) : i = j := by
  by_contra hne
  rcases Nat.lt_or_ge i j with hij | hge
  · have hj0 : j ≠ 0 := by omega
    have hv1 : v ≤ bmax i := hbi.2
    have hv2 : bmin j < v := by
      have := hbj.1
      rwa [if_neg hj0] at this
    have := bmax_le_bmin i j hij hj
    linarith
  · have hij : j < i := by omega
    have hi0 : i ≠ 0 := by omega
    have hv1 : v ≤ bmax j := hbj.2
    have hv2 : bmin i < v := by
      have := hbi.1
      rwa [if_neg hi0] at this
    have := bmax_le_bmin j i hij hi
    linarith

/-- Every value of [-1, 1] lies in some effective band. -/
theorem bandContains_exists (v : ℚ) (h1 : -1 ≤ v) (h2 : v ≤ 1) :
    ∃ i, i < 11 ∧ bandContains i v := by
  rcases le_or_lt v (-0.818) with c | c0
  · exact ⟨0, by norm_num, by
      unfold bandContains
      rw [if_pos rfl, show bmin 0 = -1.0 from rfl, show bmax 0 = -0.818 from rfl]
      exact ⟨by linarith, c⟩⟩
  rcases le_or_lt v (-0.636) with c | c1
  · exact ⟨1, by norm_num, by
      unfold bandContains
      rw [if_neg (by norm_num), show bmin 1 = -0.818 from rfl,
        show bmax 1 = -0.636 from rfl]
      exact ⟨c0, c⟩⟩
  rcases le_or_lt v (-0.454) with c | c2
  · exact ⟨2, by norm_num, by
      unfold bandContains
      rw [if_neg (by norm_num), show bmin 2 = -0.636 from rfl,
        show bmax 2 = -0.454 from rfl]
      exact ⟨c1, c⟩⟩
  rcases le_or_lt v (-0.272) with c | c3
  · exact ⟨3, by norm_num, by
      unfold bandContains
      rw [if_neg (by norm_num), show bmin 3 = -0.454 from rfl,
        show bmax 3 = -0.272 from rfl]
      exact ⟨c2, c⟩⟩
  rcases le_or_lt v (-0.090) with c | c4
  · exact ⟨4, by norm_num, by
      unfold bandContains
      rw [if_neg (by norm_num), show bmin 4 = -0.272 from rfl,
        show bmax 4 = -0.090 from rfl]
      exact ⟨c3, c⟩⟩
  rcases le_or_lt v (0.090) with c | c5
  · exact ⟨5, by norm_num, by
      unfold bandContains
      rw [if_neg (by norm_num), show bmin 5 = -0.090 from rfl,
        show bmax 5 = 0.090 from rfl]
      exact ⟨c4, c⟩⟩
  rcases le_or_lt v (0.272) with c | c6
  · exact ⟨6, by norm_num, by
      unfold bandContains
      rw [if_neg (by norm_num), show bmin 6 = 0.090 from rfl,
        show bmax 6 = 0.272 from rfl]
      exact ⟨c5, c⟩⟩
  rcases le_or_lt v (0.454) with c | c7
  · exact ⟨7, by norm_num, by
      unfold bandContains
      rw [if_neg (by norm_num), show bmin 7 = 0.272 from rfl,
        show bmax 7 = 0.454 from rfl]
      exact ⟨c6, c⟩⟩
  rcases le_or_lt v (0.636) with c | c8
  · exact ⟨8, by norm_num, by
      unfold bandContains
      rw [if_neg (by norm_num), show bmin 8 = 0.454 from rfl,
        show bmax 8 = 0.636 from rfl]
      exact ⟨c7, c⟩⟩
  rcases le_or_lt v (0.818) with c | c9
  · exact ⟨9, by norm_num, by
      unfold bandContains
      rw [if_neg (by norm_num), show bmin 9 = 0.636 from rfl,
        show bmax 9 = 0.818 from rfl]
      exact ⟨c8, c⟩⟩
  · exact ⟨10, by norm_num, by
      unfold bandContains
      rw [if_neg (by norm_num), show bmin 10 = 0.818 from rfl,
        show bmax 10 = 1.0 from rfl]
      exact ⟨c9, by linarith⟩⟩

/-- In its effective band, the scan returns that band's label. -/
theorem getSegmentText_of_bandContains (v : ℚ) (i : ℕ) (hi : i < 11)
    (hb : bandContains i v) : getSegmentText v "en" = blabel i := by
  interval_cases i
  · obtain ⟨u1, u2⟩ := hb
    rw [if_pos rfl, show bmin 0 = -1.0 from rfl] at u1
    rw [show bmax 0 = -0.818 from rfl] at u2
    exact getSegmentText_en_band0 v (by linarith) u2
  · obtain ⟨u1, u2⟩ := hb
    rw [if_neg (by norm_num), show bmin 1 = -0.818 from rfl] at u1
    rw [show bmax 1 = -0.636 from rfl] at u2
    exact getSegmentText_en_band1 v u1 u2
  · obtain ⟨u1, u2⟩ := hb
    rw [if_neg (by norm_num), show bmin 2 = -0.636 from rfl] at u1
    rw [show bmax 2 = -0.454 from rfl] at u2
    exact getSegmentText_en_band2 v u1 u2
  · obtain ⟨u1, u2⟩ := hb
    rw [if_neg (by norm_num), show bmin 3 = -0.454 from rfl] at u1
    rw [show bmax 3 = -0.272 from rfl] at u2
    exact getSegmentText_en_band3 v u1 u2
  · obtain ⟨u1, u2⟩ := hb
    rw [if_neg (by norm_num), show bmin 4 = -0.272 from rfl] at u1
    rw [show bmax 4 = -0.090 from rfl] at u2
    exact getSegmentText_en_band4 v u1 u2
  · obtain ⟨u1, u2⟩ := hb
    rw [if_neg (by norm_num), show bmin 5 = -0.090 from rfl] at u1
    rw [show bmax 5 = 0.090 from rfl] at u2
    exact getSegmentText_en_band5 v u1 u2
  · obtain ⟨u1, u2⟩ := hb
    rw [if_neg (by norm_num), show bmin 6 = 0.090 from rfl] at u1
    rw [show bmax 6 = 0.272 from rfl] at u2
    exact getSegmentText_en_band6 v u1 u2
  · obtain ⟨u1, u2⟩ := hb
    rw [if_neg (by norm_num), show bmin 7 = 0.272 from rfl] at u1
    rw [show bmax 7 = 0.454 from rfl] at u2
    exact getSegmentText_en_band7 v u1 u2
  · obtain ⟨u1, u2⟩ := hb
    rw [if_neg (by norm_num), show bmin 8 = 0.454 from rfl] at u1
    rw [show bmax 8 = 0.636 from rfl] at u2
    exact getSegmentText_en_band8 v u1 u2
  · obtain ⟨u1, u2⟩ := hb
    rw [if_neg (by norm_num), show bmin 9 = 0.636 from rfl] at u1
    rw [show bmax 9 = 0.818 from rfl] at u2
    exact getSegmentText_en_band9 v u1 u2
  · obtain ⟨u1, u2⟩ := hb
    rw [if_neg (by norm_num), show bmin 10 = 0.818 from rfl] at u1
    rw [show bmax 10 = 1.0 from rfl] at u2
    exact getSegmentText_en_band10 v u1 (by linarith)

/-- C2 (counterexample): a value on a shared band boundary does not fall in
the higher band. Under the spec's convention the boundary -0.818 belongs to
band 1 (its half-open interval [-0.818, -0.636) contains it), but the scan
returns band 0's label, which differs from band 1's label. -/
theorem boundary_value_goes_to_lower_band :
    specBandContains 1 (-0.818)
    ∧ getSegmentText (-0.818) "en" = blabel 0
    ∧ blabel 0 ≠ blabel 1 := by
  refine ⟨?_, ?_, ?_⟩
  · unfold specBandContains
    rw [if_neg (by norm_num), show bmin 1 = -0.818 from rfl,
      show bmax 1 = -0.636 from rfl]
    norm_num
  · exact getSegmentText_en_band0 (-0.818) (by norm_num) (by norm_num)
  · decide

/-- C2 (amended): the 11 bands are exhaustive over [-1, 1] and every value
in [-1, 1] lies in exactly one effective band, where a value on a shared
boundary falls in the LOWER band (the first match in table order): each
effective band is the half-open `(min, max]`, except band 0 which is closed
on both ends; `getSegmentText` returns exactly that band's label. -/
theorem bands_partition (v : ℚ) (h1 : -1 ≤ v) (h2 : v ≤ 1) :
    (∃! i : ℕ, i < 11 ∧ bandContains i v)
    ∧ ∀ i : ℕ, i < 11 → bandContains i v →
        getSegmentText v "en" = blabel i := by
  constructor
  · obtain ⟨i, hi, hb⟩ := bandContains_exists v h1 h2
    exact ⟨i, ⟨hi, hb⟩, fun j ⟨hj, hbj⟩ => bandContains_unique v j i hj hi hbj hb⟩
  · exact fun i hi hb => getSegmentText_of_bandContains v i hi hb

/-- Witness for C2 (amended) at v = 0. -/
theorem bands_partition_witness :
    (-1 ≤ (0 : ℚ)) ∧ ((0 : ℚ) ≤ 1) ∧
    ((∃! i : ℕ, i < 11 ∧ bandContains i 0)
      ∧ ∀ i : ℕ, i < 11 → bandContains i 0 →
          getSegmentText 0 "en" = blabel i) :=
  ⟨by norm_num, by norm_num, bands_partition 0 (by norm_num) (by norm_num)⟩

/-- C9: the segment lookup is total and never fails — for every value it
first silently clamps to [-1, 1] (so classify(v) = classify(clamp v)) and
always returns the label of some row of the language's table. -/
theorem getSegmentText_total (v : ℚ) (lang : String) :
    getSegmentText v lang = getSegmentText (clamp v) lang
    ∧ ∃ seg ∈ segmentTextsFor lang, getSegmentText v lang = seg.label := by
  constructor
  · simp only [getSegmentText, clamp_idem]
  · simp only [getSegmentText]
    rcases hfs : findSegment (segmentTextsFor lang) (clamp v) with _ | l
    · exact ⟨(segmentTextsFor lang).getLastD { min := 0, max := 0, label := "" },
        getLastD_mem_of_ne_nil _ _ (segmentTextsFor_ne_nil lang), rfl⟩
    · obtain ⟨seg, hm, hl⟩ := findSegment_label_mem _ _ _ hfs
      exact ⟨seg, hm, hl.symm⟩

/-- C6: the consistency summary carries the review-flag message exactly
when some dimension consistency exceeds 0.5 in absolute value — regardless
of the overall consistency's own classification. -/
theorem review_flag_iff_outlier (overallCons : ℚ) (consList : List ℚ)
    (lang : String) :
    ((consistencyTextsFor lang).review ∈
        consistencySummaryMsgs overallCons consList lang)
    ↔ ∃ c ∈ consList, |c| > CONS_GOOD := by
  have hne : ∀ lv : ConsLevel,
      (consistencyTextsFor lang).review ≠
        (consistencyTextsFor lang).ofLevel lv := by
    intro lv
    unfold consistencyTextsFor
    split_ifs <;> cases lv <;>
      simp [ConsistencyTexts.ofLevel, consistencyTexts_en, consistencyTexts_de,
        consistencyTexts_fr]
  unfold consistencySummaryMsgs
  dsimp only
  constructor
  · intro hmem
    by_contra hno
    push_neg at hno
    have hfil : consList.filter (fun c => decide (|c| > CONS_GOOD)) = [] := by
      rw [List.filter_eq_nil_iff]
      intro a ha
      simpa using not_lt.mpr (hno a ha)
    rw [hfil] at hmem
    rw [if_neg (by simp)] at hmem
    split_ifs at hmem
    · exact hne .very_good (by simpa using hmem)
    · exact hne .good (by simpa using hmem)
    · exact hne .inconsistent (by simpa using hmem)
  · rintro ⟨c, hc, hgt⟩
    have hmemf : c ∈ consList.filter (fun c => decide (|c| > CONS_GOOD)) :=
      List.mem_filter.mpr ⟨hc, by simpa using hgt⟩
    have hpos : 0 < (consList.filter (fun c => decide (|c| > CONS_GOOD))).length :=
      List.length_pos.mpr (List.ne_nil_of_mem hmemf)
    rw [if_pos hpos]
    simp

/-- Away from prototype-member keys the prototype-chain segment lookup
agrees with the plain three-key table model `getSegmentText`. -/
theorem getSegmentTextChecked_eq_getSegmentText (v : ℚ) (lang : String)
    (h : lang ∉ objectPrototypeMembers) :
    getSegmentTextChecked v lang = some (getSegmentText v lang) := by
  by_cases h1 : lang = "en"
  · subst h1; rfl
  by_cases h2 : lang = "de"
  · subst h2; rfl
  by_cases h3 : lang = "fr"
  · subst h3; rfl
  · unfold getSegmentTextChecked getSegmentText segmentTextsAccess
      segmentTextsFor jsOrElse
    simp only [if_neg h1, if_neg h2, if_neg h3, if_neg h]

/-- C10 (counterexample): the language code "constructor" is outside
{en, de, fr}, yet no lookup falls back to the English tables: the property
access resolves the truthy inherited `Object.prototype.constructor`, so
`segmentTexts[lang] || segmentTexts.en` keeps the inherited member, the
segment lookup throws (yields no label) instead of returning an English
label, and `getTranslations` returns the inherited member rather than the
English record. -/
theorem proto_key_lookup_does_not_fall_back :
    ("constructor" ∉ ["en", "de", "fr"])
    ∧ "constructor" ∈ objectPrototypeMembers
    ∧ jsOrElse (segmentTextsAccess "constructor") segmentTexts_en =
        JsValue.protoMember
    ∧ jsOrElse (segmentTextsAccess "constructor") segmentTexts_en ≠
        JsValue.own segmentTexts_en
    ∧ getSegmentTextChecked 0 "constructor" = none
    ∧ getTranslationsChecked "constructor" = JsValue.protoMember
    ∧ getTranslationsChecked "constructor" ≠ JsValue.own TRANSLATIONS_en := by
  refine ⟨by decide, by decide, rfl, ?_, rfl, rfl, ?_⟩
  · intro hcontra
    exact JsValue.noConfusion hcontra
  · intro hcontra
    exact JsValue.noConfusion hcontra

/-- C10 (amended): for a language code outside {en, de, fr} that does not
name an inherited `Object.prototype` member, every label lookup silently
falls back to the English tables; at a prototype-member code the fallback
is not taken — the translation lookup yields the inherited member and the
segment lookup fails instead of returning a label, so label lookup is not
total over arbitrary language-code strings. -/
theorem unknown_lang_fallback_except_proto (lang : String)
    (h : lang ∉ ["en", "de", "fr"]) :
    (lang ∉ objectPrototypeMembers →
      jsOrElse (segmentTextsAccess lang) segmentTexts_en =
        JsValue.own segmentTexts_en
      ∧ getTranslationsChecked lang = JsValue.own TRANSLATIONS_en
      ∧ jsOrElse (consistencyTextsAccess lang) consistencyTexts_en =
          JsValue.own consistencyTexts_en
      ∧ jsOrElse (breakdownConsistencyTextsAccess lang)
            breakdownConsistencyTexts_en =
          JsValue.own breakdownConsistencyTexts_en
      ∧ ∀ v : ℚ, getSegmentTextChecked v lang = getSegmentTextChecked v "en")
    ∧ (lang ∈ objectPrototypeMembers →
      getTranslationsChecked lang = JsValue.protoMember
      ∧ ∀ v : ℚ, getSegmentTextChecked v lang = none) := by
  simp only [List.mem_cons, List.not_mem_nil, or_false, not_or] at h
  obtain ⟨h1, h2, h3⟩ := h
  constructor
  · intro hp
    refine ⟨?_, ?_, ?_, ?_, ?_⟩
    · unfold segmentTextsAccess jsOrElse
      simp only [if_neg h1, if_neg h2, if_neg h3, if_neg hp]
    · unfold getTranslationsChecked TRANSLATIONSAccess jsOrElse
      simp only [if_neg h1, if_neg h2, if_neg h3, if_neg hp]
    · unfold consistencyTextsAccess jsOrElse
      simp only [if_neg h1, if_neg h2, if_neg h3, if_neg hp]
    · unfold breakdownConsistencyTextsAccess jsOrElse
      simp only [if_neg h1, if_neg h2, if_neg h3, if_neg hp]
    · intro v
      rw [getSegmentTextChecked_eq_getSegmentText v lang hp,
        getSegmentTextChecked_eq_getSegmentText v "en" (by decide)]
      have hseg : segmentTextsFor lang = segmentTextsFor "en" := by
        unfold segmentTextsFor
        rw [if_neg h1, if_neg h2, if_neg h3, if_pos rfl]
      simp only [getSegmentText, hseg]
  · intro hp
    constructor
    · unfold getTranslationsChecked TRANSLATIONSAccess jsOrElse
      simp only [if_neg h1, if_neg h2, if_neg h3, if_pos hp]
    · intro v
      unfold getSegmentTextChecked segmentTextsAccess jsOrElse
      simp only [if_neg h1, if_neg h2, if_neg h3, if_pos hp]

/-- Witness for C10 (amended) at the unsupported, non-prototype language
code "es". -/
theorem unknown_lang_fallback_except_proto_witness :
    ("es" ∉ ["en", "de", "fr"]) ∧
    (("es" ∉ objectPrototypeMembers →
      jsOrElse (segmentTextsAccess "es") segmentTexts_en =
        JsValue.own segmentTexts_en
      ∧ getTranslationsChecked "es" = JsValue.own TRANSLATIONS_en
      ∧ jsOrElse (consistencyTextsAccess "es") consistencyTexts_en =
          JsValue.own consistencyTexts_en
      ∧ jsOrElse (breakdownConsistencyTextsAccess "es")
            breakdownConsistencyTexts_en =
          JsValue.own breakdownConsistencyTexts_en
      ∧ ∀ v : ℚ, getSegmentTextChecked v "es" = getSegmentTextChecked v "en")
    ∧ ("es" ∈ objectPrototypeMembers →
      getTranslationsChecked "es" = JsValue.protoMember
      ∧ ∀ v : ℚ, getSegmentTextChecked v "es" = none)) :=
  ⟨by decide, unknown_lang_fallback_except_proto "es" (by decide)⟩

/-- C4 (spec-modelled): if any of `q1..q10` is absent from a keyed input,
`validate` fails with a structured `MissingQuestion` error naming an absent
question id, and produces no result at all (never `.ok`). The error is a
value of the `ValidationError` type, not formatted text. -/
theorem validate_missing_question (input : List (String × ℤ)) (q : QId)
    (habs : q.name ∉ input.map Prod.fst) :
    ∃ qmiss : QId, validate input = .error (.MissingQuestion qmiss.name)
      ∧ qmiss.name ∉ input.map Prod.fst
      ∧ ∀ r : ResponseSet, validate input ≠ .ok r := by
  have hq : (! (input.map Prod.fst).contains q.name) = true := by
    simpa using habs
  have hmem : q ∈ allQIds := by cases q <;> simp [allQIds]
  have hne : allQIds.find?
      (fun q => ! (input.map Prod.fst).contains q.name) ≠ none := by
    intro hnone
    exact List.find?_eq_none.mp hnone q hmem hq
  rcases hfind : allQIds.find?
      (fun q => ! (input.map Prod.fst).contains q.name) with _ | qm
  · exact absurd hfind hne
  · have hp := List.find?_some hfind
    have habs2 : qm.name ∉ input.map Prod.fst := by simpa using hp
    refine ⟨qm, ?_, habs2, ?_⟩
    · unfold validate
      rw [hfind]
    · intro r hok
      unfold validate at hok
      rw [hfind] at hok
      exact Except.noConfusion hok

/-- Witness for C4 at the Scenario 4 input (q7 absent). -/
theorem validate_missing_question_witness :
    (QId.q7.name ∉ inputMissingQ7.map Prod.fst) ∧
    (∃ qmiss : QId, validate inputMissingQ7 = .error (.MissingQuestion qmiss.name)
      ∧ qmiss.name ∉ inputMissingQ7.map Prod.fst
      ∧ ∀ r : ResponseSet, validate inputMissingQ7 ≠ .ok r) :=
  ⟨by decide, validate_missing_question inputMissingQ7 .q7 (by decide)⟩

end SHS
